import Mathlib

/-!
# Verification of the LumiTracker recognition core

Shallow embedding of the watcher recognition pipeline
(`src/LumiTracker.Watcher/watcher/`): perceptual hashes, the match
classifier, the region/geometry resolver, the feature-crop stitching, and
the temporal debounce filter, together with theorems settling the spec's
claims about them.

Machine integers are modelled as `Int`/`Nat` (Python integers are
unbounded), images as pixel functions over `ℚ`, hashes as lists of
booleans, and fallible operations return `Except`.
-/

set_option autoImplicit false

/-- Python's built-in `round`: round half to even (banker's rounding),
as used by `CardPlayedTask.OnResize` and
`ActionCardHandler._ResizeFeatureCrops`. -/
def pyRound (q : ℚ) : ℤ :=
  let n : ℤ := ⌊q⌋
  let frac : ℚ := q - (n : ℚ)
  if frac < 1/2 then n
  else if 1/2 < frac then n + 1
  else if n % 2 = 0 then n else n + 1

lemma pyRound_nonneg {q : ℚ} (hq : 0 ≤ q) : 0 ≤ pyRound q := by
  have h0 : (0:ℤ) ≤ ⌊q⌋ := Int.floor_nonneg.mpr hq
  unfold pyRound
  dsimp only
  split_ifs <;> omega

/-! ## Image hashes (`feature.py`, class `ImageHash`)

A hash is a flat boolean bit-vector (numpy arrays are flattened before
every comparison in the source, and the `__sub__` guard checks `size`,
the total number of bits). -/

/-- `ImageHash` from `feature.py`: wraps the binary array
(flattened to a bit list). -/
structure ImageHash where
  hash : List Bool
deriving DecidableEq, Repr

/-- Errors raised by `ImageHash.__sub__` (`feature.py` lines 30-36). -/
inductive SubError where
  /-- `TypeError: Other hash must not be None.` -/
  | noneHash : SubError
  /-- `TypeError: ImageHashes must be of the same shape.` -/
  | shapeMismatch : SubError
deriving DecidableEq, Repr

/-- `np.count_nonzero(a.flatten() != b.flatten())`: the Hamming distance
of two equal-length bit vectors (on unequal lengths numpy never gets
here, the size guard fires first). -/
def hammingCount (a b : List Bool) : ℕ :=
  (List.zipWith (fun x y => x != y) a b).count true

/-- `ImageHash.__sub__` (`feature.py` lines 30-36): `None` and size
mismatches raise `TypeError`; otherwise the Hamming distance of the
flattened bit vectors is returned. -/
def ImageHash.sub (self : ImageHash) (other : Option ImageHash) : Except SubError ℕ :=
  match other with
  | none => .error .noneHash
  | some o =>
    if self.hash.length ≠ o.hash.length then .error .shapeMismatch
    else .ok (hammingCount self.hash o.hash)

/-- `FeatureDistance` (`feature.py` line 235):
`ImageHash(feature1) - ImageHash(feature2)`. -/
def FeatureDistance (feature1 feature2 : List Bool) : Except SubError ℕ :=
  ImageHash.sub ⟨feature1⟩ (some ⟨feature2⟩)

/-- `ImageHash.__eq__` (`feature.py` lines 38-42): `False` against `None`,
otherwise bitwise equality of the flattened arrays. -/
def ImageHash.eqOp (self : ImageHash) (other : Option ImageHash) : Bool :=
  match other with
  | none => false
  | some o => self.hash == o.hash

/-- `ImageHash.__ne__` (`feature.py` lines 44-48): also `False` against
`None`, otherwise the negated bitwise equality. -/
def ImageHash.neOp (self : ImageHash) (other : Option ImageHash) : Bool :=
  match other with
  | none => false
  | some o => !(self.hash == o.hash)

lemma hammingCount_comm (a b : List Bool) : hammingCount a b = hammingCount b a := by
  unfold hammingCount
  rw [List.zipWith_comm_of_comm]
  intro x y
  cases x <;> cases y <;> rfl

lemma hammingCount_le_length (a b : List Bool) :
    hammingCount a b ≤ a.length := by
  calc hammingCount a b ≤ (List.zipWith (fun x y => x != y) a b).length :=
        List.count_le_length _ _
    _ = min a.length b.length := List.length_zipWith ..
    _ ≤ a.length := min_le_left _ _

lemma hammingCount_self (a : List Bool) : hammingCount a a = 0 := by
  unfold hammingCount
  induction a with
  | nil => rfl
  | cons x xs ih =>
    simp only [List.zipWith_cons_cons, List.count_cons, ih]
    cases x <;> rfl

/-! ## Difference hash (`feature.py`, `DHash`)

A grayscale image is modelled as a pixel function `ℕ → ℕ → ℚ`
(row, column ↦ intensity); `cv2.resize`, an external library call, is
modelled by its contract: it returns a matrix with exactly the requested
number of rows and columns, sampled from the image. The threshold step
mirrors the numpy expression `gray[:, 1:] > gray[:, :-1]` with explicit
column slicing and an element-wise comparison. -/

/-- `cv2.resize(gray_image, (w, h))` modelled by its dimension contract:
an `h × w` matrix of samples of the image function. -/
def cvResize (g : ℕ → ℕ → ℚ) (w h : ℕ) : List (List ℚ) :=
  (List.range h).map (fun r => (List.range w).map (fun c => g r c))

/-- numpy slice `m[:, 1:]`: drop the first column. -/
def dropFirstCol (m : List (List ℚ)) : List (List ℚ) :=
  m.map (List.drop 1)

/-- numpy slice `m[:, :-1]`: drop the last column. -/
def dropLastCol (m : List (List ℚ)) : List (List ℚ) :=
  m.map List.dropLast

/-- numpy element-wise `A > B` on two matrices. -/
def matGt (A B : List (List ℚ)) : List (List Bool) :=
  List.zipWith (List.zipWith (fun x y => decide (y < x))) A B

/-- `DHash` (`feature.py` lines 58-73): resize to `hash_size + 1` columns
by `hash_size` rows, then compare each pixel with its horizontal
neighbour (`gray[:, 1:] > gray[:, :-1]`). -/
def DHash (gray_image : ℕ → ℕ → ℚ) (hash_size : ℕ) : ImageHash :=
  let resized := cvResize gray_image (hash_size + 1) hash_size
  let diff := matGt (dropFirstCol resized) (dropLastCol resized)
  ⟨diff.flatten⟩

lemma dhash_grid (g : ℕ → ℕ → ℚ) (s : ℕ) :
    matGt (dropFirstCol (cvResize g (s + 1) s)) (dropLastCol (cvResize g (s + 1) s))
      = (List.range s).map (fun r => (List.range s).map
          (fun c => decide (g r c < g r (c + 1)))) := by
  unfold matGt dropFirstCol dropLastCol cvResize
  rw [List.map_map, List.map_map, List.zipWith_map_left, List.zipWith_map_right,
    List.zipWith_same]
  apply List.map_congr_left
  intro r _
  have hdrop : (List.range (s + 1)).drop 1 = (List.range s).map (· + 1) := by
    rw [List.range_succ_eq_map, List.drop_one, List.tail_cons]
  have hlast : (List.range (s + 1)).dropLast = List.range s := by
    rw [List.range_succ, List.dropLast_concat]
  show List.zipWith _ (((List.range (s+1)).map (fun c => g r c)).drop 1)
      (((List.range (s+1)).map (fun c => g r c)).dropLast) = _
  rw [← List.map_drop, ← List.map_dropLast, hdrop, hlast, List.map_map,
    List.zipWith_map_left, List.zipWith_map_right, List.zipWith_same]
  apply List.map_congr_left
  intro c _
  rfl

lemma dhash_length (g : ℕ → ℕ → ℚ) (s : ℕ) : (DHash g s).hash.length = s * s := by
  show (matGt (dropFirstCol (cvResize g (s + 1) s))
      (dropLastCol (cvResize g (s + 1) s))).flatten.length = s * s
  rw [dhash_grid, List.length_flatten, List.map_map]
  have : ((List.range s).map (List.length ∘ fun r =>
      (List.range s).map (fun c => decide (g r c < g r (c + 1))))) =
      (List.range s).map (fun _ => s) := by
    apply List.map_congr_left
    intro r _
    simp
  rw [this, List.map_const', List.sum_replicate, List.length_range, smul_eq_mul]

/-! ## Region/geometry resolver (`regions.py`)

`enums.py` is generated plumbing outside the recognition core; the two
enumerations used by `regions.py` are reproduced from their use sites. -/

/-- Aspect-ratio buckets (`ERatioType` in `enums.py`, as used by
`regions.py`). -/
inductive ERatioType where
  | E16_9 | E16_10 | E64_27 | E43_18 | E12_5
deriving DecidableEq, Fintype, Repr

/-- Semantic screen regions (`ERegionType` in `enums.py`, as used by the
`REGIONS` table). -/
inductive ERegionType where
  | GAME_START | MY_PLAYED | OP_PLAYED | GAME_OVER | PHASE
  | ROUND | CENTER | FLOW_ANCHOR | MY_DECK | VS_ANCHOR
deriving DecidableEq, Fintype, Repr

/-- Python's `abs` on a rational value. -/
def ratAbs (q : ℚ) : ℚ := if q < 0 then -q else q

lemma ratAbs_eq_abs (q : ℚ) : ratAbs q = |q| := by
  unfold ratAbs
  split_ifs with h
  · exact (abs_of_neg h).symm
  · exact (abs_of_nonneg (le_of_not_lt h)).symm

/-- `GetRatioType` (`regions.py` lines 4-25). Returns the ratio bucket
together with a flag recording whether the unsupported-ratio diagnostic
(`LogInfo(type=EGameEvent.UNSUPPORTED_RATIO.name, ...)`) was emitted.
`EPSILON = 0.005 = 1/200`. -/
def GetRatioType (client_width client_height : ℚ) : ERatioType × Bool :=
  let ratio := client_width / client_height
  if ratAbs (ratio - 16/9) < 1/200 then (.E16_9, false)
  else if ratAbs (ratio - 16/10) < 1/200 then (.E16_10, false)
  else if ratAbs (ratio - 64/27) < 1/200 then (.E64_27, false)
  else if ratAbs (ratio - 43/18) < 1/200 then (.E43_18, false)
  else if ratAbs (ratio - 12/5) < 1/200 then (.E12_5, false)
  else (.E16_9, true)

/-- One row of the `REGIONS` table: a fractional
(left, top, width, height) box, plus the optional 5th margin field of
`VS_ANCHOR` rows. -/
structure RegionFracs where
  left : ℚ
  top : ℚ
  width : ℚ
  height : ℚ
  margin : Option ℚ
deriving DecidableEq, Repr

/-- The `REGIONS` table (`regions.py` lines 28-94). -/
def REGIONS (rt : ERatioType) (reg : ERegionType) : RegionFracs :=
  match rt, reg with
  | .E16_9, .GAME_START => ⟨0.4470, 0.4400, 0.1045, 0.1110, none⟩
  | .E16_9, .MY_PLAYED => ⟨0.1225, 0.1755, 0.1400, 0.4270, none⟩
  | .E16_9, .OP_PLAYED => ⟨0.7380, 0.1755, 0.1400, 0.4270, none⟩
  | .E16_9, .GAME_OVER => ⟨0.4220, 0.4240, 0.1555, 0.1190, none⟩
  | .E16_9, .PHASE => ⟨0.4000, 0.4800, 0.2000, 0.0400, none⟩
  | .E16_9, .ROUND => ⟨0.4400, 0.5420, 0.1200, 0.0310, none⟩
  | .E16_9, .CENTER => ⟨0.0700, 0.3380, 0.8600, 0.0500, none⟩
  | .E16_9, .FLOW_ANCHOR => ⟨0.0078, 0.3350, 0.1070, 0.3280, none⟩
  | .E16_9, .MY_DECK => ⟨0.0000, 0.5550, 0.3250, 0.2750, none⟩
  | .E16_9, .VS_ANCHOR => ⟨0.1355, 0.3595, 0.0870, 0.2585, some 0.0090⟩
  | .E16_10, .GAME_START => ⟨0.4470, 0.4470, 0.1045, 0.0995, none⟩
  | .E16_10, .MY_PLAYED => ⟨0.1490, 0.2285, 0.1305, 0.3565, none⟩
  | .E16_10, .OP_PLAYED => ⟨0.7215, 0.2285, 0.1305, 0.3565, none⟩
  | .E16_10, .GAME_OVER => ⟨0.4220, 0.4240, 0.1555, 0.1190, none⟩
  | .E16_10, .PHASE => ⟨0.4000, 0.4800, 0.2000, 0.0400, none⟩
  | .E16_10, .ROUND => ⟨0.4400, 0.5370, 0.1200, 0.0280, none⟩
  | .E16_10, .CENTER => ⟨0.0700, 0.3540, 0.8600, 0.0500, none⟩
  | .E16_10, .FLOW_ANCHOR => ⟨0.0078, 0.3550, 0.1035, 0.2850, none⟩
  | .E16_10, .MY_DECK => ⟨0.0000, 0.5500, 0.3250, 0.2500, none⟩
  | .E16_10, .VS_ANCHOR => ⟨0.1350, 0.3725, 0.0870, 0.2335, some 0.0094⟩
  | .E64_27, .GAME_START => ⟨0.4605, 0.4400, 0.0780, 0.1100, none⟩
  | .E64_27, .MY_PLAYED => ⟨0.2170, 0.1755, 0.1050, 0.4270, none⟩
  | .E64_27, .OP_PLAYED => ⟨0.6785, 0.1755, 0.1050, 0.4270, none⟩
  | .E64_27, .GAME_OVER => ⟨0.4420, 0.4250, 0.1165, 0.1190, none⟩
  | .E64_27, .PHASE => ⟨0.4000, 0.4790, 0.2000, 0.0400, none⟩
  | .E64_27, .ROUND => ⟨0.4400, 0.5410, 0.1200, 0.0320, none⟩
  | .E64_27, .CENTER => ⟨0.1000, 0.3300, 0.8000, 0.0600, none⟩
  | .E64_27, .FLOW_ANCHOR => ⟨0.0050, 0.3350, 0.0800, 0.3280, none⟩
  | .E64_27, .MY_DECK => ⟨0.1260, 0.5550, 0.2440, 0.2750, none⟩
  | .E64_27, .VS_ANCHOR => ⟨0.2265, 0.3590, 0.0650, 0.2590, some 0.0075⟩
  | .E43_18, .GAME_START => ⟨0.4605, 0.4400, 0.0780, 0.1100, none⟩
  | .E43_18, .MY_PLAYED => ⟨0.2195, 0.1755, 0.1045, 0.4275, none⟩
  | .E43_18, .OP_PLAYED => ⟨0.6776, 0.1755, 0.1045, 0.4275, none⟩
  | .E43_18, .GAME_OVER => ⟨0.4420, 0.4240, 0.1165, 0.1190, none⟩
  | .E43_18, .PHASE => ⟨0.4000, 0.4790, 0.2000, 0.0400, none⟩
  | .E43_18, .ROUND => ⟨0.4400, 0.5422, 0.1200, 0.0325, none⟩
  | .E43_18, .CENTER => ⟨0.1000, 0.3300, 0.8000, 0.0600, none⟩
  | .E43_18, .FLOW_ANCHOR => ⟨0.0050, 0.3350, 0.0780, 0.3280, none⟩
  | .E43_18, .MY_DECK => ⟨0.1260, 0.5550, 0.2440, 0.2750, none⟩
  | .E43_18, .VS_ANCHOR => ⟨0.2285, 0.3590, 0.0645, 0.2590, some 0.0070⟩
  | .E12_5, .GAME_START => ⟨0.4605, 0.4400, 0.0780, 0.1100, none⟩
  | .E12_5, .MY_PLAYED => ⟨0.2205, 0.1755, 0.1045, 0.4270, none⟩
  | .E12_5, .OP_PLAYED => ⟨0.6765, 0.1755, 0.1045, 0.4270, none⟩
  | .E12_5, .GAME_OVER => ⟨0.4420, 0.4240, 0.1165, 0.1190, none⟩
  | .E12_5, .PHASE => ⟨0.4000, 0.4790, 0.2000, 0.0400, none⟩
  | .E12_5, .ROUND => ⟨0.4400, 0.5400, 0.1200, 0.0345, none⟩
  | .E12_5, .CENTER => ⟨0.1000, 0.3300, 0.8000, 0.0600, none⟩
  | .E12_5, .FLOW_ANCHOR => ⟨0.0055, 0.3350, 0.0790, 0.3280, none⟩
  | .E12_5, .MY_DECK => ⟨0.1260, 0.5550, 0.2440, 0.2750, none⟩
  | .E12_5, .VS_ANCHOR => ⟨0.2295, 0.3590, 0.0645, 0.2590, some 0.0070⟩

/-- `CropBox` (`feature.py` lines 177-190): integer pixel rectangle. -/
structure CropBox where
  left : ℤ
  top : ℤ
  right : ℤ
  bottom : ℤ
deriving DecidableEq, Repr

/-- `CropBox.width` property. -/
def CropBox.width (b : CropBox) : ℤ := b.right - b.left

/-- `CropBox.height` property. -/
def CropBox.height (b : CropBox) : ℤ := b.bottom - b.top

/-- Pixel-space crop box for a region, as computed by
`CardPlayedTask.OnResize` (`card_played.py` lines 27-34):
round each fraction times the client dimension, then
`CropBox(left, top, left + width, top + height)`. -/
def ResolveRegion (rt : ERatioType) (reg : ERegionType)
    (client_width client_height : ℚ) : CropBox :=
  let box := REGIONS rt reg
  let left := pyRound (client_width * box.left)
  let top := pyRound (client_height * box.top)
  let width := pyRound (client_width * box.width)
  let height := pyRound (client_height * box.height)
  ⟨left, top, left + width, top + height⟩

lemma regions_fracs_nonneg :
    ∀ (rt : ERatioType) (reg : ERegionType),
      0 ≤ (REGIONS rt reg).width ∧ 0 ≤ (REGIONS rt reg).height := by
  intro rt reg
  cases rt <;> cases reg <;> exact ⟨by norm_num [REGIONS], by norm_num [REGIONS]⟩

/-! ## Match classifier (`feature.py`, `ActionCardHandler.Update`)

The decision core of `Update` (lines 295-310), parameterized by the two
configured thresholds (`cfg.threshold` / `cfg.strict_threshold`, loaded
from configuration) and by the top nearest-neighbour result of each hash
variant. Ids are integers (−1 is the no-match sentinel), distances are
Hamming distances, hence naturals. -/

/-- The accept/reject decision of `ActionCardHandler.Update`
(`feature.py` lines 299-310), returning `(card_id, dist)`. -/
def UpdateDecision (card_id_a card_id_d : ℤ) (dist_a dist_d : ℕ)
    (threshold strict_threshold : ℕ) : ℤ × ℕ :=
  if dist_d ≤ strict_threshold then (card_id_d, dist_d)
  else if dist_a ≤ strict_threshold then (card_id_a, dist_a)
  else if card_id_a = card_id_d ∧ dist_a ≤ threshold ∧ dist_d ≤ threshold then
    (card_id_a, min dist_a dist_d)
  else (-1, max dist_a dist_d)

/-! ## Feature-crop stitching (`feature.py`, `ActionCardHandler`)

The three fractional crop configurations `cfg.action_crop_box0/1/2` come
from the configuration module, which is outside the recognition sources;
they are therefore parameters here (each a fractional
(left, top, width, height) box, see `_ResizeFeatureCrops`). -/

/-- One fractional crop configuration 4-tuple
(`cfg.action_crop_boxN`). -/
structure CropCfg where
  left : ℚ
  top : ℚ
  width : ℚ
  height : ℚ
deriving DecidableEq, Repr

/-- `ActionCardHandler._ResizeFeatureCrops` (`feature.py` lines
329-380): computes the three feature crops from the crop-box width and
height. Crop 2 reuses crop 1's width and gets height
`h0 - h1` so that crops 1 and 2 stack to crop 0's height. -/
def ResizeFeatureCrops (c0 c1 c2 : CropCfg) (width height : ℤ) :
    CropBox × CropBox × CropBox :=
  let l0 := pyRound (c0.left * width)
  let t0 := pyRound (c0.top * height)
  let w0 := pyRound (c0.width * width)
  let h0 := pyRound (c0.height * height)
  let crop0 : CropBox := ⟨l0, t0, l0 + w0, t0 + h0⟩
  let l1 := pyRound (c1.left * width)
  let t1 := pyRound (c1.top * height)
  let w1 := pyRound (c1.width * width)
  let h1 := pyRound (c1.height * height)
  let crop1 : CropBox := ⟨l1, t1, l1 + w1, t1 + h1⟩
  let l2 := pyRound (c2.left * width)
  let t2 := pyRound (c2.top * height)
  let w2 := w1
  let h2 := h0 - h1
  let crop2 : CropBox := ⟨l2, t2, l2 + w2, t2 + h2⟩
  (crop0, crop1, crop2)

/-- The feature-buffer dimensions allocated by
`ActionCardHandler.OnResize` (`feature.py` lines 324-327):
height `crops[0].height`, width `crops[0].width + crops[1].width`. -/
def featureBufferDims (crops : CropBox × CropBox × CropBox) : ℤ × ℤ :=
  (crops.1.height, crops.1.width + crops.2.1.width)

/-- Destination cells of the first stitch write in
`ExtractCardFeatures` (`feature.py` line 266):
`feature_buffer[:crops[0].height, :crops[0].width]`. -/
def inWrite0 (crops : CropBox × CropBox × CropBox) (r c : ℤ) : Prop :=
  0 ≤ r ∧ r < crops.1.height ∧ 0 ≤ c ∧ c < crops.1.width

/-- Destination cells of the second stitch write (`feature.py` line
271): `feature_buffer[:crops[1].height, crops[0].width:]`. -/
def inWrite1 (crops : CropBox × CropBox × CropBox) (r c : ℤ) : Prop :=
  0 ≤ r ∧ r < crops.2.1.height ∧ crops.1.width ≤ c ∧
    c < (featureBufferDims crops).2

/-- Destination cells of the third stitch write (`feature.py` line
276): `feature_buffer[crops[1].height:, crops[0].width:]`. -/
def inWrite2 (crops : CropBox × CropBox × CropBox) (r c : ℤ) : Prop :=
  crops.2.1.height ≤ r ∧ r < (featureBufferDims crops).1 ∧
    crops.1.width ≤ c ∧ c < (featureBufferDims crops).2

/-- Cells of the feature buffer allocated by `OnResize`. -/
def inFeatureBuffer (crops : CropBox × CropBox × CropBox) (r c : ℤ) : Prop :=
  0 ≤ r ∧ r < (featureBufferDims crops).1 ∧ 0 ≤ c ∧
    c < (featureBufferDims crops).2

/-! ## Python keyword binding (`card_select.py` line 43)

`CardSelectTask.Tick` calls `card_handler.Update(self.frame_buffer,
self.db, threshold=40, check_next_dist=False)` while
`ActionCardHandler.Update` (`feature.py` line 285) declares only
`(self, frame_buffer, db)`. Python's call binding for a function without
a `**kwargs` catch-all raises `TypeError: got an unexpected keyword
argument` when a keyword name is not among the declared parameters; that
rule is embedded here. -/

/-- Result of binding a Python call against a parameter list. -/
inductive CallBinding where
  | ok : CallBinding
  /-- `TypeError: ... got an unexpected keyword argument ...` -/
  | unexpectedKeyword (kw : String) : CallBinding
deriving DecidableEq, Repr

/-- Bind keyword arguments against the declared parameter names of a
function with no `**kwargs`: the first keyword that matches no declared
parameter raises `TypeError`. -/
def bindKeywords (params : List String) (kwargs : List String) : CallBinding :=
  match kwargs.find? (fun kw => !params.contains kw) with
  | some kw => .unexpectedKeyword kw
  | none => .ok

/-- Declared parameters of `ActionCardHandler.Update`
(`feature.py` line 285). -/
def updateParams : List String := ["self", "frame_buffer", "db"]

/-- Keyword arguments passed by `CardSelectTask.Tick`
(`card_select.py` line 43). -/
def cardSelectUpdateKwargs : List String := ["threshold", "check_next_dist"]

/-! ## Temporal debounce filter (`stream_filter.py`)

Modelled from the spec: `stream_filter.py` itself is not among the
recognition sources (only its callers are), so `StreamFilter` is built
from §4.6 of the spec: each tick pushes the value into the sliding
window (evicting the oldest beyond `window_size`); below
`window_min_count` samples no decision is made; otherwise the most
frequent non-null value becomes the stable output when its count
reaches `valid_count`, is reported exactly once on the transition, and
otherwise the output reverts to null. The constructor parameters
(`null_val=-1, window_size=10, valid_count=1, window_min_count=6`) are
those of `CardSelectTask._Reset` (`card_select.py` line 23). -/

/-- Debounce filter state. -/
structure StreamFilter where
  null_val : ℤ
  window_size : ℕ
  valid_count : ℕ
  window_min_count : ℕ
  window : List ℤ
  stable : ℤ
deriving DecidableEq, Repr

/-- Push a value into the sliding window, evicting the oldest entries
beyond `window_size`. -/
def pushWindow (window_size : ℕ) (w : List ℤ) (v : ℤ) : List ℤ :=
  let w2 := w ++ [v]
  if window_size < w2.length then w2.drop (w2.length - window_size) else w2

/-- The most frequent non-null value of the window with its count
(first such value wins ties), or `none` when the window holds only null
values. -/
def mostFrequentNonNull (null_val : ℤ) (w : List ℤ) : Option (ℤ × ℕ) :=
  w.foldl (fun acc x =>
    if x = null_val then acc
    else
      match acc with
      | none => some (x, w.count x)
      | some p => if p.2 < w.count x then some (x, w.count x) else acc) none

/-- One tick of the debounce filter, modelled from spec §4.6. Returns
the new state and the reported value (the stable value exactly on a
transition to it, the null sentinel otherwise). -/
def StreamFilter.tick (f : StreamFilter) (v : ℤ) : StreamFilter × ℤ :=
  let w := pushWindow f.window_size f.window v
  if w.length < f.window_min_count then
    ({ f with window := w }, f.null_val)
  else
    match mostFrequentNonNull f.null_val w with
    | some p =>
      if f.valid_count ≤ p.2 then
        ({ f with window := w, stable := p.1 },
          if f.stable ≠ p.1 then p.1 else f.null_val)
      else
        ({ f with window := w, stable := f.null_val }, f.null_val)
    | none => ({ f with window := w, stable := f.null_val }, f.null_val)

/-- Feed a list of samples through the filter, collecting the reported
outputs. -/
def StreamFilter.run (f : StreamFilter) : List ℤ → List ℤ
  | [] => []
  | v :: rest =>
    let s := f.tick v
    s.2 :: s.1.run rest

/-- The filter configured by `CardSelectTask._Reset`
(`card_select.py` line 23). -/
def cardSelectFilter : StreamFilter :=
  { null_val := -1, window_size := 10, valid_count := 1,
    window_min_count := 6, window := [], stable := -1 }

/-! # Claims -/

/-- C1: the match classifier of `ActionCardHandler.Update` decides in
exactly this order: accept the d-hash id when `dist_d ≤
strict_threshold`; else accept the a-hash id when `dist_a ≤
strict_threshold`; else accept the shared id with confidence
`min(dist_a, dist_d)` when both ids agree and both distances are within
the looser threshold; else reject with id `-1` and confidence
`max(dist_a, dist_d)`. -/
theorem c1_match_classifier_order (card_id_a card_id_d : ℤ)
    (dist_a dist_d threshold strict_threshold : ℕ) :
    (dist_d ≤ strict_threshold →
      UpdateDecision card_id_a card_id_d dist_a dist_d threshold strict_threshold
        = (card_id_d, dist_d)) ∧
    (¬ dist_d ≤ strict_threshold → dist_a ≤ strict_threshold →
      UpdateDecision card_id_a card_id_d dist_a dist_d threshold strict_threshold
        = (card_id_a, dist_a)) ∧
    (¬ dist_d ≤ strict_threshold → ¬ dist_a ≤ strict_threshold →
      card_id_a = card_id_d → dist_a ≤ threshold → dist_d ≤ threshold →
      UpdateDecision card_id_a card_id_d dist_a dist_d threshold strict_threshold
        = (card_id_a, min dist_a dist_d)) ∧
    (¬ dist_d ≤ strict_threshold → ¬ dist_a ≤ strict_threshold →
      ¬ (card_id_a = card_id_d ∧ dist_a ≤ threshold ∧ dist_d ≤ threshold) →
      UpdateDecision card_id_a card_id_d dist_a dist_d threshold strict_threshold
        = (-1, max dist_a dist_d)) := by
  refine ⟨?_, ?_, ?_, ?_⟩ <;> intros <;>
    simp only [UpdateDecision, if_pos, if_neg, *] <;>
    simp [*]

/-- Witness for C1: each of the four branches evaluated at concrete
inputs (thresholds `threshold = 20`, `strict_threshold = 5`). -/
theorem c1_match_classifier_order_witness :
    UpdateDecision 5 7 3 2 20 5 = (7, 2) ∧
    UpdateDecision 5 7 1 50 20 5 = (5, 1) ∧
    UpdateDecision 4 4 10 12 20 5 = (4, 10) ∧
    UpdateDecision 4 9 10 12 20 5 = (-1, 12) :=
  ⟨(c1_match_classifier_order 5 7 3 2 20 5).1 (by decide),
    (c1_match_classifier_order 5 7 1 50 20 5).2.1 (by decide) (by decide),
    (c1_match_classifier_order 4 4 10 12 20 5).2.2.1 (by decide) (by decide)
      (by decide) (by decide) (by decide),
    (c1_match_classifier_order 4 9 10 12 20 5).2.2.2 (by decide) (by decide)
      (by decide)⟩

/-- C4: subtracting hashes of different bit lengths always yields the
shape-mismatch error, never a coerced numeric distance; the same holds
for `FeatureDistance`, which wraps `ImageHash.__sub__`. -/
theorem c4_shape_mismatch (a b : ImageHash)
    (h : a.hash.length ≠ b.hash.length) :
    a.sub (some b) = .error .shapeMismatch ∧
    FeatureDistance a.hash b.hash = .error .shapeMismatch ∧
    ∀ d : ℕ, a.sub (some b) ≠ .ok d := by
  refine ⟨?_, ?_, ?_⟩
  · simp [ImageHash.sub, h]
  · simp [FeatureDistance, ImageHash.sub, h]
  · intro d
    simp [ImageHash.sub, h]

/-- Witness for C4: a 1-bit hash against a 0-bit hash. -/
theorem c4_shape_mismatch_witness :
    ImageHash.sub ⟨[true]⟩ (some ⟨[]⟩) = .error .shapeMismatch ∧
    FeatureDistance [true] [] = .error .shapeMismatch ∧
    ∀ d : ℕ, ImageHash.sub ⟨[true]⟩ (some ⟨[]⟩) ≠ .ok d :=
  c4_shape_mismatch ⟨[true]⟩ ⟨[]⟩ (by decide)

/-- C5: on hashes of equal bit length `n` the distance is symmetric,
lands in `[0, n]`, and every hash has distance `0` to itself. -/
theorem c5_distance_algebra (a b : List Bool) (h : a.length = b.length) :
    FeatureDistance a b = FeatureDistance b a ∧
    (∃ d : ℕ, FeatureDistance a b = .ok d ∧ d ≤ a.length) ∧
    FeatureDistance a a = .ok 0 := by
  refine ⟨?_, ⟨hammingCount a b, ?_, hammingCount_le_length a b⟩, ?_⟩
  · simp [FeatureDistance, ImageHash.sub, h, hammingCount_comm a b]
  · simp [FeatureDistance, ImageHash.sub, h]
  · simp [FeatureDistance, ImageHash.sub, hammingCount_self]

/-- Witness for C5: two concrete 3-bit hashes. -/
theorem c5_distance_algebra_witness :
    FeatureDistance [true, false, true] [false, false, true]
      = FeatureDistance [false, false, true] [true, false, true] ∧
    (∃ d : ℕ, FeatureDistance [true, false, true] [false, false, true] = .ok d
      ∧ d ≤ [true, false, true].length) ∧
    FeatureDistance [true, false, true] [true, false, true] = .ok 0 :=
  c5_distance_algebra [true, false, true] [false, false, true] (by decide)

/-- C6: `DHash` samples the image at `(size+1)` columns by `size` rows
and thresholds each pixel against its horizontal neighbour, producing a
hash of exactly `size * size` bits. -/
theorem c6_dhash_bits (g : ℕ → ℕ → ℚ) (s : ℕ) :
    (DHash g s).hash.length = s * s ∧
    (DHash g s).hash = ((List.range s).map (fun r => (List.range s).map
      (fun c => decide (g r c < g r (c + 1))))).flatten := by
  refine ⟨dhash_length g s, ?_⟩
  show (matGt (dropFirstCol (cvResize g (s + 1) s))
      (dropLastCol (cvResize g (s + 1) s))).flatten = _
  rw [dhash_grid]

lemma ratio_far (r a b : ℚ) (hgap : 1/100 ≤ ratAbs (a - b))
    (h : ratAbs (r - a) < 1/200) : ¬ ratAbs (r - b) < 1/200 := by
  rw [ratAbs_eq_abs] at hgap h ⊢
  intro hb
  have hsplit : a - b = (r - b) - (r - a) := by ring
  have htri : |a - b| ≤ |r - b| + |r - a| := by
    rw [hsplit]
    exact abs_sub _ _
  linarith

/-- C3: `GetRatioType` maps any ratio within `EPSILON = 0.005` of a
bucket to that bucket; `1920×1080` resolves to 16:9 and `2560×1080` to
64:27; any unmatched ratio (such as `3.0`) falls back to 16:9 with the
unsupported-ratio diagnostic; the function is total, so it never
fails. -/
theorem c3_ratio_buckets :
    (∀ w h : ℚ, ratAbs (w / h - 16/9) < 1/200 →
      GetRatioType w h = (.E16_9, false)) ∧
    (∀ w h : ℚ, ratAbs (w / h - 16/10) < 1/200 →
      GetRatioType w h = (.E16_10, false)) ∧
    (∀ w h : ℚ, ratAbs (w / h - 64/27) < 1/200 →
      GetRatioType w h = (.E64_27, false)) ∧
    (∀ w h : ℚ, ratAbs (w / h - 43/18) < 1/200 →
      GetRatioType w h = (.E43_18, false)) ∧
    (∀ w h : ℚ, ratAbs (w / h - 12/5) < 1/200 →
      GetRatioType w h = (.E12_5, false)) ∧
    (∀ w h : ℚ, ¬ ratAbs (w / h - 16/9) < 1/200 →
      ¬ ratAbs (w / h - 16/10) < 1/200 →
      ¬ ratAbs (w / h - 64/27) < 1/200 →
      ¬ ratAbs (w / h - 43/18) < 1/200 →
      ¬ ratAbs (w / h - 12/5) < 1/200 →
      GetRatioType w h = (.E16_9, true)) ∧
    GetRatioType 1920 1080 = (.E16_9, false) ∧
    GetRatioType 2560 1080 = (.E64_27, false) ∧
    GetRatioType 3 1 = (.E16_9, true) := by
  refine ⟨?_, ?_, ?_, ?_, ?_, ?_, ?_, ?_, ?_⟩
  · intro w h hb
    simp only [GetRatioType]
    rw [if_pos hb]
  · intro w h hb
    simp only [GetRatioType]
    rw [if_neg (ratio_far (w / h) (16/10) (16/9) (by norm_num [ratAbs]) hb),
      if_pos hb]
  · intro w h hb
    simp only [GetRatioType]
    rw [if_neg (ratio_far (w / h) (64/27) (16/9) (by norm_num [ratAbs]) hb),
      if_neg (ratio_far (w / h) (64/27) (16/10) (by norm_num [ratAbs]) hb),
      if_pos hb]
  · intro w h hb
    simp only [GetRatioType]
    rw [if_neg (ratio_far (w / h) (43/18) (16/9) (by norm_num [ratAbs]) hb),
      if_neg (ratio_far (w / h) (43/18) (16/10) (by norm_num [ratAbs]) hb),
      if_neg (ratio_far (w / h) (43/18) (64/27) (by norm_num [ratAbs]) hb),
      if_pos hb]
  · intro w h hb
    simp only [GetRatioType]
    rw [if_neg (ratio_far (w / h) (12/5) (16/9) (by norm_num [ratAbs]) hb),
      if_neg (ratio_far (w / h) (12/5) (16/10) (by norm_num [ratAbs]) hb),
      if_neg (ratio_far (w / h) (12/5) (64/27) (by norm_num [ratAbs]) hb),
      if_neg (ratio_far (w / h) (12/5) (43/18) (by norm_num [ratAbs]) hb),
      if_pos hb]
  · intro w h h1 h2 h3 h4 h5
    simp only [GetRatioType]
    rw [if_neg h1, if_neg h2, if_neg h3, if_neg h4, if_neg h5]
  · norm_num [GetRatioType, ratAbs]
  · norm_num [GetRatioType, ratAbs]
  · norm_num [GetRatioType, ratAbs]

/-- Witness for C3: the 16:9 bucket conjunct applied at `1920×1080` and
the fallback conjunct applied at ratio `3.0`. -/
theorem c3_ratio_buckets_witness :
    GetRatioType 1920 1080 = (.E16_9, false) ∧ GetRatioType 3 1 = (.E16_9, true) :=
  ⟨c3_ratio_buckets.1 1920 1080 (by norm_num [ratAbs]),
    c3_ratio_buckets.2.2.2.2.2.1 3 1 (by norm_num [ratAbs])
      (by norm_num [ratAbs]) (by norm_num [ratAbs]) (by norm_num [ratAbs])
      (by norm_num [ratAbs])⟩

/-- C7: for every ratio bucket, region, and positive client dimensions,
the resolved pixel crop box satisfies `right ≥ left` and
`bottom ≥ top`. -/
theorem c7_crop_box_invariant (rt : ERatioType) (reg : ERegionType)
    (client_width client_height : ℚ)
    (hw : 0 < client_width) (hh : 0 < client_height) :
    (ResolveRegion rt reg client_width client_height).left
      ≤ (ResolveRegion rt reg client_width client_height).right ∧
    (ResolveRegion rt reg client_width client_height).top
      ≤ (ResolveRegion rt reg client_width client_height).bottom := by
  have h1 : 0 ≤ pyRound (client_width * (REGIONS rt reg).width) :=
    pyRound_nonneg (mul_nonneg hw.le (regions_fracs_nonneg rt reg).1)
  have h2 : 0 ≤ pyRound (client_height * (REGIONS rt reg).height) :=
    pyRound_nonneg (mul_nonneg hh.le (regions_fracs_nonneg rt reg).2)
  simp only [ResolveRegion]
  constructor <;> omega

/-- Witness for C7: the 16:9 `GAME_START` region at `1920×1080`. -/
theorem c7_crop_box_invariant_witness :
    (ResolveRegion .E16_9 .GAME_START 1920 1080).left
      ≤ (ResolveRegion .E16_9 .GAME_START 1920 1080).right ∧
    (ResolveRegion .E16_9 .GAME_START 1920 1080).top
      ≤ (ResolveRegion .E16_9 .GAME_START 1920 1080).bottom :=
  c7_crop_box_invariant .E16_9 .GAME_START 1920 1080 (by norm_num) (by norm_num)

/-- C8: the `CardSelectTask.Tick` call site passes the keywords
`threshold` and `check_next_dist`, which `ActionCardHandler.Update`
does not declare, so Python call binding raises `TypeError` for the
unexpected keyword instead of returning a result. -/
theorem c8_update_call_signature_mismatch :
    bindKeywords updateParams cardSelectUpdateKwargs
      = .unexpectedKeyword "threshold" ∧
    bindKeywords updateParams cardSelectUpdateKwargs ≠ .ok := by
  refine ⟨rfl, ?_⟩
  intro hk
  exact CallBinding.noConfusion hk

lemma pushWindow_length_le (ws : ℕ) (w : List ℤ) (v : ℤ) :
    (pushWindow ws w v).length ≤ w.length + 1 := by
  unfold pushWindow
  dsimp only
  split_ifs with h
  · simp only [List.length_drop, List.length_append, List.length_cons,
      List.length_nil]
    omega
  · simp

/-- C2 counterexample: with `window_size=10, valid_count=1,
window_min_count=6`, feeding `[-1,-1,-1,-1,-1,3]` does not leave the
output null: the single `3` already has count `1 ≥ valid_count`, so `3`
is reported on the 6th sample. -/
theorem c2_first_fixture_reports_three :
    cardSelectFilter.run [-1, -1, -1, -1, -1, 3] ≠ List.replicate 6 (-1) ∧
    (cardSelectFilter.run [-1, -1, -1, -1, -1, 3]).getLast? = some 3 := by
  decide

/-- C2 (amended): with the `CardSelectTask` parameters, feeding
`[-1,-1,-1,-1,-1,3]` transitions the output to stable value `3` on the
6th sample (count `1` meets `valid_count = 1`) rather than staying
null; feeding `[3,3,3,3,3,3]` reports `3` exactly once, after the 6th
sample; in general no decision is made before `window_min_count`
samples, and a non-null value is reported only when it is the most
frequent non-null value of the window with count at least
`valid_count`. -/
theorem c2_debounce_filter :
    cardSelectFilter.run [-1, -1, -1, -1, -1, 3] = [-1, -1, -1, -1, -1, 3] ∧
    cardSelectFilter.run [3, 3, 3, 3, 3, 3] = [-1, -1, -1, -1, -1, 3] ∧
    (∀ (f : StreamFilter) (v : ℤ), f.window.length + 1 < f.window_min_count →
      (f.tick v).2 = f.null_val ∧ (f.tick v).1.stable = f.stable) ∧
    (∀ (f : StreamFilter) (v : ℤ), (f.tick v).2 ≠ f.null_val →
      ∃ c : ℕ, mostFrequentNonNull f.null_val (f.tick v).1.window
          = some ((f.tick v).2, c) ∧
        f.valid_count ≤ c ∧ (f.tick v).1.stable = (f.tick v).2) := by
  refine ⟨by decide, by decide, ?_, ?_⟩
  · intro f v hlt
    have hw := pushWindow_length_le f.window_size f.window v
    unfold StreamFilter.tick
    dsimp only
    rw [if_pos (lt_of_le_of_lt hw hlt)]
    exact ⟨rfl, rfl⟩
  · intro f v
    unfold StreamFilter.tick
    dsimp only
    split_ifs with h1
    · intro hout
      exact absurd rfl hout
    · split
      case _ p heq =>
        obtain ⟨v0, cnt⟩ := p
        split_ifs with hvc hst
        · intro _
          exact ⟨cnt, heq, hvc, rfl⟩
        · intro hout
          exact absurd rfl hout
        · intro hout
          exact absurd rfl hout
      case _ heq =>
        intro hout
        exact absurd rfl hout

/-- Witness for C2: the no-decision conjunct applied to the fresh
`CardSelectTask` filter on its first sample. -/
theorem c2_debounce_filter_witness :
    (cardSelectFilter.tick 3).2 = cardSelectFilter.null_val ∧
    (cardSelectFilter.tick 3).1.stable = cardSelectFilter.stable :=
  c2_debounce_filter.2.2.1 cardSelectFilter 3 (by decide)

/-- C9: after `ActionCardHandler.OnResize`, crop 2 has crop 1's width,
crops 1 and 2 stack to exactly crop 0's height, the feature buffer has
height `crops[0].height` and width `crops[0].width + crops[1].width`,
and — under the stitched-layout constraints (crop 1 width and height
nonnegative, crop 1 no taller than crop 0) — the three stitch writes of
`ExtractCardFeatures` tile the feature buffer with no gap or overlap. -/
theorem c9_feature_crops_tile (c0 c1 c2 : CropCfg) (wd ht : ℤ)
    (hw0 : 0 ≤ (ResizeFeatureCrops c0 c1 c2 wd ht).1.width)
    (hw1 : 0 ≤ (ResizeFeatureCrops c0 c1 c2 wd ht).2.1.width)
    (hh1 : 0 ≤ (ResizeFeatureCrops c0 c1 c2 wd ht).2.1.height)
    (hh10 : (ResizeFeatureCrops c0 c1 c2 wd ht).2.1.height
      ≤ (ResizeFeatureCrops c0 c1 c2 wd ht).1.height) :
    (ResizeFeatureCrops c0 c1 c2 wd ht).2.2.width
      = (ResizeFeatureCrops c0 c1 c2 wd ht).2.1.width ∧
    (ResizeFeatureCrops c0 c1 c2 wd ht).2.1.height
        + (ResizeFeatureCrops c0 c1 c2 wd ht).2.2.height
      = (ResizeFeatureCrops c0 c1 c2 wd ht).1.height ∧
    (featureBufferDims (ResizeFeatureCrops c0 c1 c2 wd ht)).1
      = (ResizeFeatureCrops c0 c1 c2 wd ht).1.height ∧
    (featureBufferDims (ResizeFeatureCrops c0 c1 c2 wd ht)).2
      = (ResizeFeatureCrops c0 c1 c2 wd ht).1.width
        + (ResizeFeatureCrops c0 c1 c2 wd ht).2.1.width ∧
    ∀ r c : ℤ,
      (inFeatureBuffer (ResizeFeatureCrops c0 c1 c2 wd ht) r c ↔
        inWrite0 (ResizeFeatureCrops c0 c1 c2 wd ht) r c ∨
        inWrite1 (ResizeFeatureCrops c0 c1 c2 wd ht) r c ∨
        inWrite2 (ResizeFeatureCrops c0 c1 c2 wd ht) r c) ∧
      ¬ (inWrite0 (ResizeFeatureCrops c0 c1 c2 wd ht) r c ∧
        inWrite1 (ResizeFeatureCrops c0 c1 c2 wd ht) r c) ∧
      ¬ (inWrite0 (ResizeFeatureCrops c0 c1 c2 wd ht) r c ∧
        inWrite2 (ResizeFeatureCrops c0 c1 c2 wd ht) r c) ∧
      ¬ (inWrite1 (ResizeFeatureCrops c0 c1 c2 wd ht) r c ∧
        inWrite2 (ResizeFeatureCrops c0 c1 c2 wd ht) r c) := by
  simp only [ResizeFeatureCrops, featureBufferDims, CropBox.width,
    CropBox.height, inWrite0, inWrite1, inWrite2, inFeatureBuffer]
    at hw0 hw1 hh1 hh10 ⊢
  refine ⟨by first | trivial | omega, by first | trivial | omega,
    by first | trivial | omega, by first | trivial | omega, ?_⟩
  intro r c
  refine ⟨?_, ?_, ?_, ?_⟩ <;> first | trivial | omega

/-- Witness for C9: a concrete stitched layout (crop 0 the left half at
full height, crops 1 and 2 the right half split at mid height) on a
`100 × 200` crop box. -/
theorem c9_feature_crops_tile_witness :
    (ResizeFeatureCrops ⟨0, 0, 1/2, 1⟩ ⟨1/2, 0, 1/2, 1/2⟩
        ⟨1/2, 1/2, 1/2, 1/2⟩ 100 200).2.2.width
      = (ResizeFeatureCrops ⟨0, 0, 1/2, 1⟩ ⟨1/2, 0, 1/2, 1/2⟩
        ⟨1/2, 1/2, 1/2, 1/2⟩ 100 200).2.1.width :=
  (c9_feature_crops_tile ⟨0, 0, 1/2, 1⟩ ⟨1/2, 0, 1/2, 1/2⟩
    ⟨1/2, 1/2, 1/2, 1/2⟩ 100 200
    (by norm_num [ResizeFeatureCrops, CropBox.width, pyRound])
    (by norm_num [ResizeFeatureCrops, CropBox.width, pyRound])
    (by norm_num [ResizeFeatureCrops, CropBox.height, pyRound])
    (by norm_num [ResizeFeatureCrops, CropBox.height, pyRound])).1

/-- C10: comparing an `ImageHash` with `None` returns `False` under both
`__eq__` and `__ne__`, so `__ne__` is not the negation of `__eq__`
there. -/
theorem c10_none_comparison (h : ImageHash) :
    h.eqOp none = false ∧ h.neOp none = false ∧
    ¬ (h.neOp none = !(h.eqOp none)) := by
  simp [ImageHash.eqOp, ImageHash.neOp]
